import Mathlib

/-!
Verification of the cat-image upload pipeline (`main.py`) against its
natural-language specification.

The program is a linear four-stage pipeline: collect operator input,
fetch a captioned image over HTTP, upload it to a cloud drive
(folder-ensure, upload-link request, binary PUT), and append a record to
a JSON log file.  Network and file effects are embedded shallowly: each
HTTP interaction is represented by the response the environment would
give (or a network exception), and the log file by its parsed content.
-/

/- ## Filename derivation (main.py lines 155-156) -/

/-- Models Python `str.isalnum` on the character ranges this development
exercises: ASCII letters and digits plus the basic Russian Cyrillic
letters U+0410..U+044F and Ё/ё, all of which Python classifies as
alphanumeric.  Code points outside these ranges are conservatively
mapped to `false`; no theorem below depends on where this predicate is
true, except concrete evaluations on ASCII and Cyrillic inputs. -/
def pyIsAlnum (c : Char) : Bool :=
  c.isAlphanum || (0x410 ≤ c.toNat && c.toNat ≤ 0x44F) || c = 'Ё' || c = 'ё'

/-- One character of the generator expression
`c if c.isalnum() or c in " _-" else "_"` (main.py line 155). -/
def sanitizeChar (c : Char) : Char :=
  if pyIsAlnum c || c = ' ' || c = '_' || c = '-' then c else '_'

/-- One character of `file_name.replace(" ", "_")` (main.py line 156);
the pattern is a single character, so `replace` acts characterwise. -/
def spaceToUnderscore (c : Char) : Char :=
  if c = ' ' then '_' else c

/-- The two-step filename derivation of main.py lines 155-156, on the
character list of the caption. -/
def fileNameChars (cs : List Char) : List Char :=
  (cs.map sanitizeChar).map spaceToUnderscore

/-- The derived safe filename of a caption (main.py lines 155-156). -/
def file_name_of (s : String) : String :=
  ⟨fileNameChars s.data⟩

/-- The character set `[A-Za-z0-9_-]` that the spec claims for derived
filenames (stated from the spec's words, for comparison). -/
def specSafeChar (c : Char) : Bool :=
  c.isAlphanum || c = '_' || c = '-'

theorem sanitizeChar_keep (c : Char)
    (h : (pyIsAlnum c || c = ' ' || c = '_' || c = '-') = true) :
    sanitizeChar c = c := by
  unfold sanitizeChar
  rw [if_pos h]

theorem sanitizeChar_drop (c : Char)
    (h : ¬ (pyIsAlnum c || c = ' ' || c = '_' || c = '-') = true) :
    sanitizeChar c = '_' := by
  unfold sanitizeChar
  rw [if_neg h]

theorem spaceToUnderscore_ne (c : Char) (h : ¬ c = ' ') :
    spaceToUnderscore c = c := by
  unfold spaceToUnderscore
  rw [if_neg h]

theorem fileNameChars_step (c : Char) :
    spaceToUnderscore (sanitizeChar (spaceToUnderscore (sanitizeChar c)))
      = spaceToUnderscore (sanitizeChar c) := by
  by_cases h1 : (pyIsAlnum c || c = ' ' || c = '_' || c = '-') = true
  · rw [sanitizeChar_keep c h1]
    by_cases h2 : c = ' '
    · subst h2; decide
    · rw [spaceToUnderscore_ne c h2, sanitizeChar_keep c h1,
        spaceToUnderscore_ne c h2]
  · rw [sanitizeChar_drop c h1]; decide

theorem fileNameChars_idem (cs : List Char) :
    fileNameChars (fileNameChars cs) = fileNameChars cs := by
  unfold fileNameChars
  simp only [List.map_map, List.map_inj_left, Function.comp]
  intro c _
  exact fileNameChars_step c

theorem data_file_name_of (s : String) :
    (file_name_of s).data = fileNameChars s.data := rfl

/-- C7: Filename derivation is idempotent: for every caption, applying
the derivation to its own output yields the same string as applying it
once. -/
theorem file_name_of_idempotent (s : String) :
    file_name_of (file_name_of s) = file_name_of s := by
  unfold file_name_of
  simp [fileNameChars_idem]

theorem length_fileNameChars (cs : List Char) :
    (fileNameChars cs).length = cs.length := by
  simp [fileNameChars]

/-- C10: Filename derivation is length-preserving: the derived safe
filename has exactly as many characters as the caption, and in
particular is non-empty whenever the caption is non-empty. -/
theorem file_name_of_length (s : String) :
    (file_name_of s).length = s.length ∧ (s ≠ "" → file_name_of s ≠ "") := by
  constructor
  · show (file_name_of s).data.length = s.data.length
    rw [data_file_name_of, length_fileNameChars]
  · intro hne hcontra
    apply hne
    have hdata : (file_name_of s).data = [] := by rw [hcontra]
    rw [data_file_name_of] at hdata
    have hlen : s.data.length = 0 := by
      rw [← length_fileNameChars s.data, hdata]; rfl
    have hnil : s.data = [] := List.eq_nil_of_length_eq_zero hlen
    cases s with
    | mk data =>
      have : data = [] := hnil
      rw [this]

/-- C10 witness at a concrete caption. -/
theorem file_name_of_length_witness :
    (file_name_of "Hello World!").length = ("Hello World!" : String).length ∧
      file_name_of "Hello World!" ≠ "" := by
  refine ⟨(file_name_of_length "Hello World!").1, ?_⟩
  exact (file_name_of_length "Hello World!").2 (by decide)

theorem pyIsAlnum_ascii (d : Char) (h : pyIsAlnum d = true)
    (hd : d.toNat < 128) : d.isAlphanum = true := by
  unfold pyIsAlnum at h
  simp only [Bool.or_eq_true, Bool.and_eq_true, decide_eq_true_eq] at h
  rcases h with ((ha | hcyr) | hE) | he
  · exact ha
  · omega
  · rw [hE] at hd; exact absurd hd (by decide)
  · rw [he] at hd; exact absurd hd (by decide)

/-- C2 (amended): every character of the derived safe filename is either
alphanumeric in Python's Unicode sense (and never a space), an
underscore, or a hyphen; when the caption is pure ASCII every character
of the derived filename lies in `[A-Za-z0-9_-]`. -/
theorem file_name_of_chars (s : String) (c : Char)
    (hc : c ∈ (file_name_of s).data) :
    ((pyIsAlnum c = true ∧ c ≠ ' ') ∨ c = '_' ∨ c = '-')
      ∧ ((∀ d ∈ s.data, d.toNat < 128) → specSafeChar c = true) := by
  rw [data_file_name_of] at hc
  unfold fileNameChars at hc
  rw [List.map_map] at hc
  obtain ⟨d, hd, hcd⟩ := List.mem_map.mp hc
  have hcd : c = spaceToUnderscore (sanitizeChar d) := hcd.symm
  by_cases hk : (pyIsAlnum d || d = ' ' || d = '_' || d = '-') = true
  · rw [sanitizeChar_keep d hk] at hcd
    by_cases hsp : d = ' '
    · rw [hsp] at hcd
      rw [show spaceToUnderscore ' ' = '_' from rfl] at hcd
      subst hcd
      exact ⟨Or.inr (Or.inl rfl), fun _ => by decide⟩
    · rw [spaceToUnderscore_ne d hsp] at hcd
      subst hcd
      simp only [Bool.or_eq_true, decide_eq_true_eq] at hk
      rcases hk with ((ha | h1) | h2) | h3
      · refine ⟨Or.inl ⟨ha, hsp⟩, fun hascii => ?_⟩
        have : c.isAlphanum = true := pyIsAlnum_ascii c ha (hascii c hd)
        unfold specSafeChar
        simp [this]
      · exact absurd h1 hsp
      · exact ⟨Or.inr (Or.inl h2), fun _ => by rw [h2]; decide⟩
      · exact ⟨Or.inr (Or.inr h3), fun _ => by rw [h3]; decide⟩
  · rw [sanitizeChar_drop d hk] at hcd
    rw [show spaceToUnderscore '_' = '_' from rfl] at hcd
    subst hcd
    exact ⟨Or.inr (Or.inl rfl), fun _ => by decide⟩

/-- C2 witness: the amended theorem applied at caption `"Hello World!"`
and the underscore character of its derived filename. -/
theorem file_name_of_chars_witness :
    ((pyIsAlnum '_' = true ∧ '_' ≠ ' ') ∨ '_' = '_' ∨ '_' = '-')
      ∧ ((∀ d ∈ ("Hello World!" : String).data, d.toNat < 128) →
          specSafeChar '_' = true) :=
  file_name_of_chars "Hello World!" '_' (by decide)

/-- C2 counterexample: the Cyrillic caption `"П"` derives to the
filename `"П"`, whose single character is outside `[A-Za-z0-9_-]`,
because Python's `isalnum` accepts non-ASCII letters. -/
theorem file_name_of_nonascii_cex :
    file_name_of "П" = "П" ∧ specSafeChar 'П' = false := by
  constructor
  · decide
  · decide

/- ## URL percent-encoding (main.py line 18, `urllib.parse.quote`) -/

/-- Characters `urllib.parse.quote` leaves unencoded with its default
`safe='/'`: ASCII letters, digits, `_.-~`, and the slash. -/
def quoteSafe (c : Char) : Bool :=
  c.isAlphanum || c = '_' || c = '.' || c = '-' || c = '~' || c = '/'

/-- Uppercase hexadecimal digit for a value below 16, as `quote`
emits. -/
def hexDigitChar (n : Nat) : Char :=
  if n < 10 then Char.ofNat (48 + n) else Char.ofNat (55 + n)

/-- Numeric value of a hexadecimal digit character. -/
def hexVal (c : Char) : Option Nat :=
  if '0' ≤ c ∧ c ≤ '9' then some (c.toNat - 48)
  else if 'A' ≤ c ∧ c ≤ 'F' then some (c.toNat - 55)
  else if 'a' ≤ c ∧ c ≤ 'f' then some (c.toNat - 87)
  else none

/-- UTF-8 encoding of a Unicode scalar value, written with division and
remainder so every byte is explicit. -/
def utf8EncodeCodepoint (n : Nat) : List Nat :=
  if n < 0x80 then [n]
  else if n < 0x800 then [0xC0 + n / 64, 0x80 + n % 64]
  else if n < 0x10000 then
    [0xE0 + n / 4096, 0x80 + (n / 64) % 64, 0x80 + n % 64]
  else
    [0xF0 + n / 262144, 0x80 + (n / 4096) % 64, 0x80 + (n / 64) % 64,
      0x80 + n % 64]

/-- Percent-escape of one byte: `%` followed by two uppercase hex
digits, as `quote` produces. -/
def pctEncodeByte (b : Nat) : List Char :=
  ['%', hexDigitChar (b / 16), hexDigitChar (b % 16)]

/-- Concatenation of the images of a list, used instead of the library
bind to keep evaluation and induction elementary. -/
def concatMap (f : α → List β) : List α → List β
  | [] => []
  | a :: as => f a ++ concatMap f as

/-- Encoding of one character by `quote`: safe characters pass through,
all others are percent-escaped byte by byte of their UTF-8 form. -/
def quoteChar (c : Char) : List Char :=
  if quoteSafe c then [c] else concatMap pctEncodeByte (utf8EncodeCodepoint c.toNat)

/-- Models `urllib.parse.quote` with the default `safe='/'`, as called in
`get_cat_image` (main.py line 18). -/
def quote (s : String) : String :=
  ⟨concatMap quoteChar s.data⟩

/-- Percent-decoding of a character sequence to a byte sequence: a `%`
followed by two hex digits yields that byte, any other character
contributes its own UTF-8 bytes; a malformed escape is rejected. -/
def pctDecodeChars : List Char → Option (List Nat)
  | [] => some []
  | c :: rest =>
    if c = '%' then
      match rest with
      | c1 :: c2 :: rest2 =>
        match hexVal c1, hexVal c2 with
        | some hi, some lo =>
          (pctDecodeChars rest2).map (fun bs => (16 * hi + lo) :: bs)
        | _, _ => none
      | _ => none
    else (pctDecodeChars rest).map (fun bs => utf8EncodeCodepoint c.toNat ++ bs)

/-- Strict reading of one UTF-8-encoded scalar value from the front of
a byte sequence: returns the character and the remaining bytes, or
`none` on a stray continuation byte, out-of-range lead byte, or missing
continuation. -/
def utf8DecodeOne : List Nat → Option (Char × List Nat)
  | [] => none
  | b :: bs =>
    if b < 0x80 then some (Char.ofNat b, bs)
    else if b < 0xC2 then none
    else if b < 0xE0 then
      match bs with
      | b2 :: rest =>
        if 0x80 ≤ b2 ∧ b2 < 0xC0 then
          some (Char.ofNat ((b - 0xC0) * 64 + (b2 - 0x80)), rest)
        else none
      | [] => none
    else if b < 0xF0 then
      match bs with
      | b2 :: b3 :: rest =>
        if (0x80 ≤ b2 ∧ b2 < 0xC0) ∧ (0x80 ≤ b3 ∧ b3 < 0xC0) then
          some (Char.ofNat ((b - 0xE0) * 4096 + (b2 - 0x80) * 64 + (b3 - 0x80)),
            rest)
        else none
      | _ => none
    else if b < 0xF5 then
      match bs with
      | b2 :: b3 :: b4 :: rest =>
        if (0x80 ≤ b2 ∧ b2 < 0xC0) ∧ (0x80 ≤ b3 ∧ b3 < 0xC0) ∧
            (0x80 ≤ b4 ∧ b4 < 0xC0) then
          some (Char.ofNat ((b - 0xF0) * 262144 + (b2 - 0x80) * 4096 +
            (b3 - 0x80) * 64 + (b4 - 0x80)), rest)
        else none
      | _ => none
    else none

/-- Repeatedly read scalar values; the fuel bounds the number of
characters and is set to the byte count, which always suffices because
each step consumes at least one byte. -/
def utf8DecodeLoop : Nat → List Nat → Option (List Char)
  | _, [] => some []
  | 0, _ :: _ => none
  | fuel + 1, b :: bs =>
    match utf8DecodeOne (b :: bs) with
    | some (c, rest) => (utf8DecodeLoop fuel rest).map (fun cs => c :: cs)
    | none => none

/-- Strict UTF-8 decoding of a byte sequence. -/
def utf8DecodeBytes (bs : List Nat) : Option (List Char) :=
  utf8DecodeLoop bs.length bs

/-- Percent-decode a string and interpret the bytes as UTF-8: the
inverse direction of `quote` used to state the round-trip. -/
def unquote (s : String) : Option String :=
  (pctDecodeChars s.data).bind
    (fun bs => (utf8DecodeBytes bs).map (fun cs => ⟨cs⟩))

theorem char_toNat_lt (c : Char) : c.toNat < 0x110000 := by
  rcases c.valid with h | ⟨_, h⟩
  · have h2 : c.val.toNat < 0xd800 := h
    exact Nat.lt_trans h2 (by norm_num)
  · exact h

theorem hexVal_hexDigitChar (n : Nat) (h : n < 16) :
    hexVal (hexDigitChar n) = some n := by
  interval_cases n <;> decide

theorem pctDecode_pctEncodeByte (b : Nat) (hb : b < 256) (rest : List Char) :
    pctDecodeChars (pctEncodeByte b ++ rest)
      = (pctDecodeChars rest).map (fun bs => b :: bs) := by
  show pctDecodeChars
      ('%' :: hexDigitChar (b / 16) :: hexDigitChar (b % 16) :: rest) = _
  simp only [pctDecodeChars, if_pos rfl, if_true,
    hexVal_hexDigitChar (b / 16) (by omega),
    hexVal_hexDigitChar (b % 16) (by omega)]
  have hbb : 16 * (b / 16) + b % 16 = b := by omega
  rw [hbb]

theorem utf8EncodeCodepoint_lt (n : Nat) (hn : n < 0x110000) :
    ∀ b ∈ utf8EncodeCodepoint n, b < 256 := by
  intro b hb
  unfold utf8EncodeCodepoint at hb
  split_ifs at hb <;> simp only [List.mem_cons, List.mem_singleton,
    List.not_mem_nil, or_false] at hb <;> omega

theorem pctDecode_concatEncode (bytes : List Nat) (rest : List Char)
    (h : ∀ b ∈ bytes, b < 256) :
    pctDecodeChars (concatMap pctEncodeByte bytes ++ rest)
      = (pctDecodeChars rest).map (fun bs => bytes ++ bs) := by
  induction bytes with
  | nil =>
    show pctDecodeChars rest = _
    cases hr : pctDecodeChars rest <;> simp
  | cons b bytes ih =>
    show pctDecodeChars (pctEncodeByte b ++ concatMap pctEncodeByte bytes ++ rest) = _
    rw [List.append_assoc,
      pctDecode_pctEncodeByte b (h b (List.mem_cons_self b bytes)) _,
      ih (fun x hx => h x (List.mem_cons_of_mem b hx))]
    cases hr : pctDecodeChars rest <;> simp

theorem quoteSafe_ne_pct (c : Char) (h : quoteSafe c = true) : ¬ c = '%' := by
  intro hc
  rw [hc] at h
  exact absurd h (by decide)

theorem pctDecode_cons_ne (c : Char) (rest : List Char) (h : ¬ c = '%') :
    pctDecodeChars (c :: rest)
      = (pctDecodeChars rest).map (fun bs => utf8EncodeCodepoint c.toNat ++ bs) := by
  match rest with
  | [] => simp only [pctDecodeChars, if_neg h]
  | [c1] => simp only [pctDecodeChars, if_neg h]
  | c1 :: c2 :: rest2 => simp only [pctDecodeChars, if_neg h]

theorem pctDecode_quoteChar (c : Char) (rest : List Char) :
    pctDecodeChars (quoteChar c ++ rest)
      = (pctDecodeChars rest).map (fun bs => utf8EncodeCodepoint c.toNat ++ bs) := by
  unfold quoteChar
  by_cases hsafe : quoteSafe c
  · rw [if_pos hsafe]
    show pctDecodeChars (c :: rest) = _
    exact pctDecode_cons_ne c rest (quoteSafe_ne_pct c hsafe)
  · rw [if_neg hsafe]
    exact pctDecode_concatEncode _ rest
      (utf8EncodeCodepoint_lt c.toNat (char_toNat_lt c))

theorem utf8DecodeOne_encode (c : Char) (bs : List Nat) :
    utf8DecodeOne (utf8EncodeCodepoint c.toNat ++ bs) = some (c, bs) := by
  have hlt := char_toNat_lt c
  unfold utf8EncodeCodepoint
  by_cases h1 : c.toNat < 0x80
  · rw [if_pos h1]
    show utf8DecodeOne (c.toNat :: bs) = _
    simp only [utf8DecodeOne, if_pos h1, Char.ofNat_toNat]
  · rw [if_neg h1]
    by_cases h2 : c.toNat < 0x800
    · rw [if_pos h2]
      show utf8DecodeOne (_ :: _ :: bs) = _
      simp only [utf8DecodeOne]
      rw [if_neg (by omega), if_neg (by omega), if_pos (by omega),
        if_pos (by constructor <;> omega)]
      have harith : (0xC0 + c.toNat / 64 - 0xC0) * 64 +
          (0x80 + c.toNat % 64 - 0x80) = c.toNat := by omega
      rw [harith, Char.ofNat_toNat]
    · rw [if_neg h2]
      by_cases h3 : c.toNat < 0x10000
      · rw [if_pos h3]
        show utf8DecodeOne (_ :: _ :: _ :: bs) = _
        simp only [utf8DecodeOne]
        rw [if_neg (by omega), if_neg (by omega), if_neg (by omega),
          if_pos (by omega), if_pos (by refine ⟨⟨?_, ?_⟩, ?_, ?_⟩ <;> omega)]
        have harith : (0xE0 + c.toNat / 4096 - 0xE0) * 4096 +
            (0x80 + c.toNat / 64 % 64 - 0x80) * 64 +
            (0x80 + c.toNat % 64 - 0x80) = c.toNat := by omega
        rw [harith, Char.ofNat_toNat]
      · rw [if_neg h3]
        show utf8DecodeOne (_ :: _ :: _ :: _ :: bs) = _
        simp only [utf8DecodeOne]
        rw [if_neg (by omega), if_neg (by omega), if_neg (by omega),
          if_neg (by omega), if_pos (by omega),
          if_pos (by refine ⟨⟨?_, ?_⟩, ⟨?_, ?_⟩, ?_, ?_⟩ <;> omega)]
        have harith : (0xF0 + c.toNat / 262144 - 0xF0) * 262144 +
            (0x80 + c.toNat / 4096 % 64 - 0x80) * 4096 +
            (0x80 + c.toNat / 64 % 64 - 0x80) * 64 +
            (0x80 + c.toNat % 64 - 0x80) = c.toNat := by omega
        rw [harith, Char.ofNat_toNat]

theorem utf8EncodeCodepoint_cons (n : Nat) :
    ∃ b tb, utf8EncodeCodepoint n = b :: tb := by
  unfold utf8EncodeCodepoint
  split_ifs <;> exact ⟨_, _, rfl⟩

theorem utf8DecodeLoop_concatEncode (cs : List Char) (fuel : Nat)
    (hf : (concatMap (fun c => utf8EncodeCodepoint c.toNat) cs).length ≤ fuel) :
    utf8DecodeLoop fuel (concatMap (fun c => utf8EncodeCodepoint c.toNat) cs)
      = some cs := by
  induction cs generalizing fuel with
  | nil => cases fuel <;> rfl
  | cons c cs ih =>
    obtain ⟨b, tb, hcons⟩ := utf8EncodeCodepoint_cons c.toNat
    have hshape : concatMap (fun c => utf8EncodeCodepoint c.toNat) (c :: cs)
        = utf8EncodeCodepoint c.toNat
          ++ concatMap (fun c => utf8EncodeCodepoint c.toNat) cs := rfl
    rw [hshape] at hf ⊢
    have hlen : 1 ≤ (utf8EncodeCodepoint c.toNat).length := by
      rw [hcons]; exact Nat.succ_le_succ (Nat.zero_le _)
    rw [List.length_append] at hf
    cases fuel with
    | zero => omega
    | succ f =>
      rw [hcons]
      show utf8DecodeLoop (f + 1)
          (b :: (tb ++ concatMap (fun c => utf8EncodeCodepoint c.toNat) cs))
        = some (c :: cs)
      simp only [utf8DecodeLoop]
      rw [show b :: (tb ++ concatMap (fun c => utf8EncodeCodepoint c.toNat) cs)
          = (b :: tb) ++ concatMap (fun c => utf8EncodeCodepoint c.toNat) cs
          from rfl, ← hcons, utf8DecodeOne_encode c _]
      show Option.map (fun cs => c :: cs)
          (utf8DecodeLoop f (concatMap (fun c => utf8EncodeCodepoint c.toNat) cs))
        = some (c :: cs)
      rw [ih f (by omega)]
      rfl

theorem utf8DecodeBytes_concatEncode (cs : List Char) :
    utf8DecodeBytes (concatMap (fun c => utf8EncodeCodepoint c.toNat) cs)
      = some cs :=
  utf8DecodeLoop_concatEncode cs _ (Nat.le_refl _)

theorem pctDecode_quoteList (cs : List Char) :
    pctDecodeChars (concatMap quoteChar cs)
      = some (concatMap (fun c => utf8EncodeCodepoint c.toNat) cs) := by
  induction cs with
  | nil => rfl
  | cons c cs ih =>
    show pctDecodeChars (quoteChar c ++ concatMap quoteChar cs) = _
    rw [pctDecode_quoteChar, ih]
    rfl

theorem string_mk_data (s : String) : (⟨s.data⟩ : String) = s := by
  cases s; rfl

theorem unquote_quote (s : String) : unquote (quote s) = some s := by
  unfold unquote quote
  rw [show (⟨concatMap quoteChar s.data⟩ : String).data
      = concatMap quoteChar s.data from rfl]
  rw [pctDecode_quoteList s.data]
  show (utf8DecodeBytes _).map _ = _
  rw [utf8DecodeBytes_concatEncode s.data]
  show some ⟨s.data⟩ = some s
  rw [string_mk_data]

/-- The fetch URL built by `get_cat_image` (main.py line 21). -/
def catUrl (text : String) : String :=
  "https://cataas.com/cat/says/" ++ quote text

/-- The reserved URL characters named by the claim: space, `&`, `#`,
and any non-ASCII character. -/
def reservedUrlChar (c : Char) : Bool :=
  c = ' ' || c = '&' || c = '#' || 128 ≤ c.toNat

/-- C8: for every caption containing reserved URL characters, the
encoded text embedded in the fetch request path percent-decodes back to
exactly the original caption. -/
theorem quote_roundtrips (s : String)
    (h : ∃ c ∈ s.data, reservedUrlChar c = true) :
    catUrl s = "https://cataas.com/cat/says/" ++ quote s
      ∧ unquote (quote s) = some s :=
  ⟨rfl, unquote_quote s⟩

/-- C8 witness: the round-trip theorem applied to a caption containing
a space, an ampersand, a hash, and a non-ASCII letter. -/
theorem quote_roundtrips_witness :
    (∃ c ∈ ("a b&c#П" : String).data, reservedUrlChar c = true)
      ∧ unquote (quote "a b&c#П") = some "a b&c#П" :=
  ⟨by decide, (quote_roundtrips "a b&c#П" (by decide)).2⟩

/- ## HTTP and pipeline model (main.py lines 12-187) -/

/-- An HTTP response as the program observes it: the status code, the
raw body bytes, and the `href` field of the JSON body when the body is
a JSON object carrying one (main.py line 80 reads only that field). -/
structure HttpResponse where
  status : Nat
  body : List Nat
  jsonHref : Option String
deriving DecidableEq

/-- Outcome of one `requests` call: a response, or a raised network
exception (connection error, timeout, ...). -/
inductive HttpResult where
  | ok (r : HttpResponse)
  | netError
deriving DecidableEq

/-- Observable steps of one run, in order: the three network requests
of the happy path plus the log-file save. -/
inductive Event where
  | netFetch
  | netCreateFolder
  | netUploadPrep
  | netTransfer
  | logSave
deriving DecidableEq

/-- Models `get_cat_image` (main.py lines 12-33): GET the image, then
`raise_for_status`, which raises exactly for statuses 400-599; any
exception is caught and turned into `None`, otherwise the body is
returned. -/
def get_cat_image (resp : HttpResult) : Option (List Nat) :=
  match resp with
  | .netError => none
  | .ok r => if 400 ≤ r.status ∧ r.status < 600 then none else some r.body

/-- Models `create_yandex_folder` (main.py lines 39-60): the PUT's status is
compared against `[201, 409]`; any other status, and any raised
exception, yields `False`. -/
def create_yandex_folder (resp : HttpResult) : Bool :=
  match resp with
  | .netError => false
  | .ok r => r.status = 201 || r.status = 409

/-- Result of `upload_to_yandex`, together with the network calls it
performed. -/
structure UploadResult where
  success : Bool
  full_path : Option String
  calls : List Event
deriving DecidableEq

/-- Models `upload_to_yandex` (main.py lines 63-94): GET the upload link and
`raise_for_status` (raises for 400-599), read `json()["href"]` (a
missing field raises and is caught), then PUT the payload.  The PUT's
status code is never examined: only a raised exception during the
transfer reaches the `except` block; otherwise the function returns
`(True, full_path)`. -/
def upload_to_yandex (token folder_name file_name : String)
    (image_data : List Nat) (prep put : HttpResult) : UploadResult :=
  let full_path := folder_name ++ "/" ++ file_name ++ ".jpg"
  match prep with
  | .netError => ⟨false, none, [.netUploadPrep]⟩
  | .ok r =>
    if 400 ≤ r.status ∧ r.status < 600 then ⟨false, none, [.netUploadPrep]⟩
    else
      match r.jsonHref with
      | none => ⟨false, none, [.netUploadPrep]⟩
      | some _ =>
        match put with
        | .netError => ⟨false, none, [.netUploadPrep, .netTransfer]⟩
        | .ok _ => ⟨true, some full_path, [.netUploadPrep, .netTransfer]⟩

/-- The record `file_info` written by a successful run (main.py lines
163-172). -/
structure UploadRecord where
  date : String
  text : String
  file_name : String
  file_size_bytes : Nat
  file_size_mb_hundredths : Nat
  folder : String
  yandex_path : Option String
  status : String
deriving DecidableEq

/-- Hundredths of a megabyte: models `round(n / (1024 * 1024), 2)`
(main.py line 168) by half-up rounding on exact rationals.  Python
rounds the nearest binary double instead, which can differ in the last
hundredth on tie cases; no claim concerns this field. -/
def mbHundredths (bytes : Nat) : Nat :=
  (bytes * 100 + 524288) / 1048576

/-- The state of the log file as `save_to_json` observes it: absent,
present and parsing as a list of records, or present but unparsable. -/
inductive LogFile where
  | absent
  | stored (records : List UploadRecord)
  | corrupt
deriving DecidableEq

/-- What a call to `save_to_json` did: the resulting file state and
whether the `except` block reported an error. -/
structure SaveResult where
  newFile : LogFile
  errorReported : Bool
deriving DecidableEq

/-- Models `save_to_json` (main.py lines 100-121): read the existing list if
the file exists (a parse failure raises, is caught, and reported,
leaving the file untouched), append the new record, rewrite the whole
file (a failing write is caught and reported).  The function never
propagates an exception. -/
def save_to_json (data : UploadRecord) (file : LogFile)
    (writeFails : Bool) : SaveResult :=
  match file with
  | .corrupt => ⟨.corrupt, true⟩
  | .absent => if writeFails then ⟨.absent, true⟩ else ⟨.stored [data], false⟩
  | .stored l =>
    if writeFails then ⟨.stored l, true⟩ else ⟨.stored (l ++ [data]), false⟩

/-- ASCII whitespace stripped by Python `str.strip()`; Python also
strips a handful of Unicode space characters, which none of the claims
exercise. -/
def pyWhitespace (c : Char) : Bool :=
  c = ' ' || c = '\t' || c = '\n' || c = '\r' || c = '\x0b' || c = '\x0c'

/-- Models Python `str.strip()` on the operator inputs: remove leading
and trailing whitespace. -/
def pyStrip (s : String) : String :=
  ⟨((s.data.dropWhile pyWhitespace).reverse.dropWhile pyWhitespace).reverse⟩

/-- The environment of one run: the three raw operator inputs, the
clock reading, the response each network call would receive, and the
log-file state. -/
structure Env where
  userTextInput : String
  tokenInput : String
  groupInput : String
  nowIso : String
  catResp : HttpResult
  folderResp : HttpResult
  prepResp : HttpResult
  putResp : HttpResult
  logFile : LogFile
  writeFails : Bool
deriving DecidableEq

/-- Everything observable about one run of `main`. -/
structure RunOutcome where
  events : List Event
  finalLog : LogFile
  savedRecord : Option UploadRecord
  uploadResult : Option (Bool × Option String)
  saveOutcome : Option SaveResult
  completed : Bool
deriving DecidableEq

/-- The body of `main` (main.py lines 127-183; named `main_run` because Lean reserves `main` for executables): strip the three inputs and abort if
any is empty; fetch the image and abort on `None` or an empty body;
ensure the folder and abort on failure; derive the filename; upload;
on upload success build `file_info` and save it.  The closing banner
(`completed`) is printed whenever the run gets past folder creation,
even if the upload failed, because only the earlier stages `return`
early. -/
def main_run (env : Env) : RunOutcome :=
  let user_text := pyStrip env.userTextInput
  let yandex_token := pyStrip env.tokenInput
  let group_name := pyStrip env.groupInput
  if user_text = "" ∨ yandex_token = "" ∨ group_name = "" then
    { events := [], finalLog := env.logFile, savedRecord := none,
      uploadResult := none, saveOutcome := none, completed := false }
  else
    match get_cat_image env.catResp with
    | none =>
      { events := [.netFetch], finalLog := env.logFile, savedRecord := none,
        uploadResult := none, saveOutcome := none, completed := false }
    | some image_data =>
      if image_data.isEmpty then
        { events := [.netFetch], finalLog := env.logFile, savedRecord := none,
          uploadResult := none, saveOutcome := none, completed := false }
      else if create_yandex_folder env.folderResp then
        let file_name := file_name_of user_text
        let up := upload_to_yandex yandex_token group_name file_name
          image_data env.prepResp env.putResp
        if up.success then
          let file_info : UploadRecord :=
            { date := env.nowIso, text := user_text,
              file_name := file_name ++ ".jpg",
              file_size_bytes := image_data.length,
              file_size_mb_hundredths := mbHundredths image_data.length,
              folder := group_name, yandex_path := up.full_path,
              status := "uploaded" }
          let sres := save_to_json file_info env.logFile env.writeFails
          { events := [.netFetch, .netCreateFolder] ++ up.calls ++ [.logSave],
            finalLog := sres.newFile, savedRecord := some file_info,
            uploadResult := some (up.success, up.full_path),
            saveOutcome := some sres, completed := true }
        else
          { events := [.netFetch, .netCreateFolder] ++ up.calls,
            finalLog := env.logFile, savedRecord := none,
            uploadResult := some (up.success, up.full_path),
            saveOutcome := none, completed := true }
      else
        { events := [.netFetch, .netCreateFolder], finalLog := env.logFile,
          savedRecord := none, uploadResult := none, saveOutcome := none,
          completed := false }

/- ## Claim theorems over the pipeline -/

/-- C4: a successful logging step turns a parsed list of N records into
the same N records followed by the new one (so N+1 records with the new
one last), and an absent file into a one-element list. -/
theorem save_to_json_appends (l : List UploadRecord) (data : UploadRecord) :
    (save_to_json data (.stored l) false).newFile = .stored (l ++ [data])
      ∧ (save_to_json data .absent false).newFile = .stored [data]
      ∧ (l ++ [data]).length = l.length + 1
      ∧ (l ++ [data]).take l.length = l
      ∧ (l ++ [data]).getLast? = some data := by
  refine ⟨rfl, rfl, by simp, List.take_left l [data], by simp⟩

/-- C6: when any of the three inputs is empty after stripping, the run
performs no network call and no log write, leaves the log file
untouched, and aborts before completion. -/
theorem empty_input_aborts (env : Env)
    (h : pyStrip env.userTextInput = "" ∨ pyStrip env.tokenInput = ""
      ∨ pyStrip env.groupInput = "") :
    (main_run env).events = [] ∧ (main_run env).completed = false
      ∧ (main_run env).finalLog = env.logFile
      ∧ (main_run env).savedRecord = none := by
  unfold main_run
  rw [if_pos h]
  exact ⟨rfl, rfl, rfl, rfl⟩

/-- C6 witness: a run whose token input is blank. -/
theorem empty_input_aborts_witness :
    (main_run
      { userTextInput := "Hello", tokenInput := "   ",
        groupInput := "group1", nowIso := "2026-10-12T00:00:00",
        catResp := .ok ⟨200, [1], none⟩, folderResp := .ok ⟨201, [], none⟩,
        prepResp := .ok ⟨200, [], some "https://u"⟩,
        putResp := .ok ⟨201, [], none⟩, logFile := .stored [],
        writeFails := false }).events = [] :=
  (empty_input_aborts _ (by decide)).1

/-- C3: folder-ensure succeeds exactly on statuses 201 and 409, and on
any other status the run never issues the upload-link request or the
binary transfer and records no upload result. -/
theorem folder_ensure_gate (r : HttpResponse) (env : Env)
    (hr : env.folderResp = .ok r)
    (hbad : r.status ≠ 201 ∧ r.status ≠ 409) :
    (∀ s : HttpResponse,
        (create_yandex_folder (.ok s) = true ↔ (s.status = 201 ∨ s.status = 409)))
      ∧ create_yandex_folder env.folderResp = false
      ∧ Event.netUploadPrep ∉ (main_run env).events
      ∧ Event.netTransfer ∉ (main_run env).events
      ∧ (main_run env).uploadResult = none := by
  have hiff : ∀ s : HttpResponse,
      (create_yandex_folder (.ok s) = true ↔ (s.status = 201 ∨ s.status = 409)) := by
    intro s
    show (s.status = 201 || s.status = 409) = true ↔ _
    simp
  have hfail : create_yandex_folder env.folderResp = false := by
    rw [hr]
    show (r.status = 201 || r.status = 409) = false
    simp [hbad.1, hbad.2]
  refine ⟨hiff, hfail, ?_⟩
  unfold main_run
  simp only [hfail, Bool.false_eq_true, if_false]
  split
  · simp
  · split
    · simp
    · split
      · simp
      · simp

/-- C3 witness: a folder-creation response with status 403. -/
theorem folder_ensure_gate_witness :
    create_yandex_folder (.ok ⟨403, [], none⟩) = false
      ∧ Event.netUploadPrep ∉ (main_run
          { userTextInput := "Hello",
            tokenInput := "tok", groupInput := "group1",
            nowIso := "2026-10-12T00:00:00", catResp := .ok ⟨200, [1], none⟩,
            folderResp := .ok ⟨403, [], none⟩,
            prepResp := .ok ⟨200, [], some "https://u"⟩,
            putResp := .ok ⟨201, [], none⟩, logFile := .stored [],
            writeFails := false }).events :=
  ⟨(folder_ensure_gate ⟨403, [], none⟩
      { userTextInput := "Hello",
        tokenInput := "tok", groupInput := "group1",
        nowIso := "2026-10-12T00:00:00", catResp := .ok ⟨200, [1], none⟩,
        folderResp := .ok ⟨403, [], none⟩,
        prepResp := .ok ⟨200, [], some "https://u"⟩,
        putResp := .ok ⟨201, [], none⟩, logFile := .stored [],
        writeFails := false } rfl (by decide)).2.1,
    (folder_ensure_gate ⟨403, [], none⟩ _ rfl (by decide)).2.2.1⟩

/-- C9: a 2xx fetch response with an empty body is treated like a fetch
failure: the run aborts after the fetch with no folder creation, no
upload, and no log write. -/
theorem empty_body_aborts (env : Env) (r : HttpResponse)
    (hin : ¬ (pyStrip env.userTextInput = "" ∨ pyStrip env.tokenInput = ""
      ∨ pyStrip env.groupInput = ""))
    (hc : env.catResp = .ok r)
    (h2xx : 200 ≤ r.status ∧ r.status < 300)
    (hbody : r.body = []) :
    (main_run env).events = [Event.netFetch]
      ∧ (main_run env).completed = false
      ∧ (main_run env).savedRecord = none
      ∧ (main_run env).finalLog = env.logFile
      ∧ Event.netCreateFolder ∉ (main_run env).events
      ∧ Event.netUploadPrep ∉ (main_run env).events
      ∧ Event.netTransfer ∉ (main_run env).events
      ∧ Event.logSave ∉ (main_run env).events := by
  have hget : get_cat_image env.catResp = some [] := by
    rw [hc]
    show (if 400 ≤ r.status ∧ r.status < 600 then none else some r.body)
      = some []
    rw [if_neg (by omega), hbody]
  unfold main_run
  rw [if_neg hin]
  simp only [hget]
  simp

/-- C9 witness: an HTTP 200 fetch response carrying zero bytes. -/
theorem empty_body_aborts_witness :
    (main_run
      { userTextInput := "Hello", tokenInput := "tok",
        groupInput := "group1", nowIso := "2026-10-12T00:00:00",
        catResp := .ok ⟨200, [], none⟩, folderResp := .ok ⟨201, [], none⟩,
        prepResp := .ok ⟨200, [], some "https://u"⟩,
        putResp := .ok ⟨201, [], none⟩, logFile := .stored [],
        writeFails := false }).events = [Event.netFetch] :=
  (empty_body_aborts _ ⟨200, [], none⟩ (by decide) rfl (by decide) rfl).1

theorem upload_to_yandex_ok (token folder fname : String)
    (image_data : List Nat) (rp : HttpResponse)
    (hps : ¬ (400 ≤ rp.status ∧ rp.status < 600))
    (href : String) (hhref : rp.jsonHref = some href)
    (rput : HttpResponse) :
    upload_to_yandex token folder fname image_data (.ok rp) (.ok rput)
      = ⟨true, some (folder ++ "/" ++ fname ++ ".jpg"),
          [.netUploadPrep, .netTransfer]⟩ := by
  show (if 400 ≤ rp.status ∧ rp.status < 600 then
      (⟨false, none, [.netUploadPrep]⟩ : UploadResult)
    else match rp.jsonHref with
      | none => ⟨false, none, [.netUploadPrep]⟩
      | some _ => ⟨true, some (folder ++ "/" ++ fname ++ ".jpg"),
          [.netUploadPrep, .netTransfer]⟩) = _
  rw [if_neg hps, hhref]

/-- C1 (amended): once the upload-link request succeeded and carried an
`href`, the reported outcome is decided solely by whether the transfer
raises a network exception: a completed PUT yields success with the
destination path whatever its status code, and only a raised exception
yields failure. -/
theorem upload_outcome_by_exception (token folder fname : String)
    (image_data : List Nat) (rp : HttpResponse)
    (hps : ¬ (400 ≤ rp.status ∧ rp.status < 600))
    (href : String) (hhref : rp.jsonHref = some href) (put : HttpResult) :
    (∀ rput : HttpResponse, put = .ok rput →
        (upload_to_yandex token folder fname image_data (.ok rp) put).success
            = true
          ∧ (upload_to_yandex token folder fname image_data (.ok rp) put).full_path
              = some (folder ++ "/" ++ fname ++ ".jpg"))
      ∧ (put = .netError →
          (upload_to_yandex token folder fname image_data (.ok rp) put).success
              = false
            ∧ (upload_to_yandex token folder fname image_data
                (.ok rp) put).full_path = none) := by
  constructor
  · intro rput h
    subst h
    rw [upload_to_yandex_ok token folder fname image_data rp hps href hhref rput]
    exact ⟨rfl, rfl⟩
  · intro h
    subst h
    show ((if 400 ≤ rp.status ∧ rp.status < 600 then
        (⟨false, none, [.netUploadPrep]⟩ : UploadResult)
      else match rp.jsonHref with
        | none => ⟨false, none, [.netUploadPrep]⟩
        | some _ => ⟨false, none,
            [.netUploadPrep, .netTransfer]⟩).success = false)
      ∧ ((if 400 ≤ rp.status ∧ rp.status < 600 then
        (⟨false, none, [.netUploadPrep]⟩ : UploadResult)
      else match rp.jsonHref with
        | none => ⟨false, none, [.netUploadPrep]⟩
        | some _ => ⟨false, none,
            [.netUploadPrep, .netTransfer]⟩).full_path = none)
    rw [if_neg hps, hhref]
    exact ⟨rfl, rfl⟩

/-- C1 witness: a completed PUT with status 201 is reported as
success. -/
theorem upload_outcome_by_exception_witness :
    (upload_to_yandex "tok" "group1" "cat" [1]
        (.ok ⟨200, [], some "https://u"⟩) (.ok ⟨201, [], none⟩)).success
      = true :=
  ((upload_outcome_by_exception "tok" "group1" "cat" [1]
      ⟨200, [], some "https://u"⟩ (by decide) "https://u" rfl
      (.ok ⟨201, [], none⟩)).1 ⟨201, [], none⟩ rfl).1

/-- C1 counterexample: the final PUT answered with HTTP 500 and no
exception still yields success and the destination path, because the
code never reads the transfer's status code. -/
theorem upload_put_500_success_cex :
    (upload_to_yandex "tok" "group1" "cat" [1]
        (.ok ⟨200, [], some "https://u"⟩) (.ok ⟨500, [], none⟩)).success
        = true
      ∧ (upload_to_yandex "tok" "group1" "cat" [1]
          (.ok ⟨200, [], some "https://u"⟩) (.ok ⟨500, [], none⟩)).full_path
          = some "group1/cat.jpg" := by
  constructor
  · decide
  · decide

/-- C5: when every stage up to the upload succeeds but the log file is
corrupt or the write fails, the logging error is reported, the run
still completes, and the successful upload (its record and destination
path) is retained. -/
theorem log_failure_isolated (env : Env) (rc rf rp rput : HttpResponse)
    (hin : ¬ (pyStrip env.userTextInput = "" ∨ pyStrip env.tokenInput = ""
      ∨ pyStrip env.groupInput = ""))
    (hc : env.catResp = .ok rc)
    (hcs : ¬ (400 ≤ rc.status ∧ rc.status < 600))
    (hbody : rc.body ≠ [])
    (hf : env.folderResp = .ok rf)
    (hfs : rf.status = 201 ∨ rf.status = 409)
    (hp : env.prepResp = .ok rp)
    (hps : ¬ (400 ≤ rp.status ∧ rp.status < 600))
    (href : String) (hhref : rp.jsonHref = some href)
    (hput : env.putResp = .ok rput)
    (hlog : env.logFile = .corrupt ∨ env.writeFails = true) :
    (main_run env).completed = true
      ∧ (∃ rec, (main_run env).savedRecord = some rec ∧ rec.status = "uploaded")
      ∧ (∃ so, (main_run env).saveOutcome = some so ∧ so.errorReported = true)
      ∧ (main_run env).uploadResult
          = some (true, some (pyStrip env.groupInput ++ "/"
              ++ file_name_of (pyStrip env.userTextInput) ++ ".jpg")) := by
  have hget : get_cat_image env.catResp = some rc.body := by
    rw [hc]
    show (if 400 ≤ rc.status ∧ rc.status < 600 then none else some rc.body)
      = some rc.body
    rw [if_neg hcs]
  have hne : rc.body.isEmpty = false := by
    cases hb : rc.body with
    | nil => exact absurd hb hbody
    | cons x xs => rfl
  have hfolder : create_yandex_folder env.folderResp = true := by
    rw [hf]
    show (rf.status = 201 || rf.status = 409) = true
    rcases hfs with h | h <;> simp [h]
  have hup := upload_to_yandex_ok (pyStrip env.tokenInput)
    (pyStrip env.groupInput) (file_name_of (pyStrip env.userTextInput))
    rc.body rp hps href hhref rput
  unfold main_run
  rw [if_neg hin]
  simp only [hget, hne, Bool.false_eq_true, if_false, hfolder, if_true, hp,
    hput, hup]
  rcases hlog with hl | hw
  · simp [save_to_json, hl]
  · simp only [hw, save_to_json]
    cases hfile : env.logFile <;> simp [hfile]

/-- C5 witness: a fully successful upload over a corrupt log file. -/
theorem log_failure_isolated_witness :
    (main_run
      { userTextInput := "Hello", tokenInput := "tok",
        groupInput := "group1", nowIso := "2026-10-12T00:00:00",
        catResp := .ok ⟨200, [1], none⟩, folderResp := .ok ⟨201, [], none⟩,
        prepResp := .ok ⟨200, [], some "https://u"⟩,
        putResp := .ok ⟨201, [], none⟩, logFile := .corrupt,
        writeFails := false }).completed = true :=
  (log_failure_isolated _ ⟨200, [1], none⟩ ⟨201, [], none⟩
    ⟨200, [], some "https://u"⟩ ⟨201, [], none⟩ (by decide) rfl (by decide)
    (by decide) rfl (Or.inl rfl) rfl (by decide) "https://u" rfl rfl
    (Or.inl rfl)).1
